import Mathlib

/-!
Verification of the scoring/aggregation core of the myapi repository
(content moderation, sentiment emotion extraction, crypto portfolio risk).

Python floats are modelled as exact rationals (ℚ); Python strings as Lean
strings (lists of characters).  The regular-expression scans of the source
are modelled by a small backtracking matcher whose priority order follows
Python's re module (leftmost match, alternatives tried left to right,
greedy quantifiers), specialised to the constructs that occur in the
source patterns (literals, classes, alternation, word boundaries,
quantified subexpressions).
-/

/-- Python `\w` on the ASCII range (letters, digits, underscore). -/
def isWordChar (c : Char) : Bool :=
  (('a' ≤ c && c ≤ 'z') || ('A' ≤ c && c ≤ 'Z') || ('0' ≤ c && c ≤ '9') || c = '_')

/-- Python `\d`. -/
def isDigitChar (c : Char) : Bool := '0' ≤ c && c ≤ '9'

/-- Python `\s` (space, tab, newline, carriage return, vertical tab, form feed). -/
def isSpaceChar (c : Char) : Bool :=
  c = ' ' || c = '\t' || c = '\n' || c = '\x0d' || c = '\x0b' || c = '\x0c'

/-- Hexadecimal digit, `[0-9a-fA-F]`. -/
def isHexChar (c : Char) : Bool :=
  ('0' ≤ c && c ≤ '9') || ('a' ≤ c && c ≤ 'f') || ('A' ≤ c && c ≤ 'F')

/-- ASCII letter, `[a-zA-Z]`. -/
def isAsciiAlpha (c : Char) : Bool := ('a' ≤ c && c ≤ 'z') || ('A' ≤ c && c ≤ 'Z')

/-- The character class `[$-_@.&+]` of the URL pattern: the range from
`$` (0x24) to `_` (0x5F) together with `@`, `.`, `&`, `+`. -/
def isUrlRangeChar (c : Char) : Bool :=
  ('$' ≤ c && c ≤ '_') || c = '@' || c = '.' || c = '&' || c = '+'

/-- The character class `[!*\(\),]` of the URL pattern. -/
def isUrlPunctChar (c : Char) : Bool :=
  c = '!' || c = '*' || c = '\\' || c = '(' || c = ')' || c = ','

/-- Regular expressions, restricted to the constructs used by the source. -/
inductive Regex where
  | eps : Regex
  | lit (c : Char) : Regex
  | cls (p : Char → Bool) : Regex
  | bnd : Regex
  | seq (r1 r2 : Regex) : Regex
  | alt (r1 r2 : Regex) : Regex
  | star (r : Regex) : Regex

/-- `r?` -/
def Regex.opt (r : Regex) : Regex := Regex.alt r Regex.eps

/-- `r+` -/
def Regex.plus (r : Regex) : Regex := Regex.seq r (Regex.star r)

/-- Structural size of a regex, used to compute an adequate fuel bound. -/
def rsize : Regex → Nat
  | .eps => 1
  | .lit _ => 1
  | .cls _ => 1
  | .bnd => 1
  | .seq r1 r2 => rsize r1 + rsize r2 + 1
  | .alt r1 r2 => rsize r1 + rsize r2 + 1
  | .star r => rsize r + 1

/-- Word-character test on an optional character (`none` = outside the text). -/
def isWordOpt : Option Char → Bool
  | none => false
  | some c => isWordChar c

/-- The last character of the consumed prefix, or the previous character if
nothing was consumed; used to evaluate `\b` after a partial match. -/
def lastOf (prev : Option Char) (consumed : List Char) : Option Char :=
  match consumed.getLast? with
  | some c => some c
  | none => prev

/-- All ways a regex can match a prefix of `s`, as the list of consumed
lengths in backtracking priority order (alternatives left to right, stars
greedy).  `prev` is the character immediately before `s`, for `\b`.
`fuel` bounds the recursion depth; every recursive call decrements it, so
the definition is structural and kernel-reducible. -/
def ends : Nat → Regex → Option Char → List Char → List Nat
  | 0, _, _, _ => []
  | _ + 1, .eps, _, _ => [0]
  | _ + 1, .lit c, _, s =>
      match s with
      | [] => []
      | a :: _ => if a = c then [1] else []
  | _ + 1, .cls p, _, s =>
      match s with
      | [] => []
      | a :: _ => if p a then [1] else []
  | _ + 1, .bnd, prev, s =>
      if isWordOpt prev != isWordOpt s.head? then [0] else []
  | fuel + 1, .seq r1 r2, prev, s =>
      (ends fuel r1 prev s).flatMap (fun e1 =>
        (ends fuel r2 (lastOf prev (s.take e1)) (s.drop e1)).map (fun e2 => e1 + e2))
  | fuel + 1, .alt r1 r2, prev, s =>
      ends fuel r1 prev s ++ ends fuel r2 prev s
  | fuel + 1, .star r, prev, s =>
      ((ends fuel r prev s).filter (fun e => 0 < e)).flatMap (fun e =>
        (ends fuel (.star r) (lastOf prev (s.take e)) (s.drop e)).map (fun e2 => e + e2))
      ++ [0]

/-- Match attempts at one position, with fuel adequate for the recursion:
nesting descends into structurally smaller regexes between star iterations,
and each star iteration consumes at least one character. -/
def matchEnds (r : Regex) (prev : Option Char) (s : List Char) : List Nat :=
  ends ((rsize r + 1) * (s.length + 2)) r prev s

/-- Does `r` match anywhere at or after the current position?
(`re.search` on the suffix `s`, `prev` being the preceding character.) -/
def searchFrom (r : Regex) : Option Char → List Char → Bool
  | prev, [] => !(matchEnds r prev []).isEmpty
  | prev, a :: t => !(matchEnds r prev (a :: t)).isEmpty || searchFrom r (some a) t

/-- `re.search(r, s) is not None`. -/
def reSearch (r : Regex) (s : List Char) : Bool := searchFrom r none s

/-- Scanning loop of `re.findall`: at each position take the
backtracking-first match and continue after it, otherwise advance one
character.  `fuel` bounds the number of steps (each step either consumes
the matched characters or advances by one). -/
def findFrom : Nat → Regex → Option Char → List Char → Nat
  | 0, _, _, _ => 0
  | fuel + 1, r, prev, s =>
      match matchEnds r prev s with
      | [] =>
          match s with
          | [] => 0
          | a :: t => findFrom fuel r (some a) t
      | e :: _ =>
          if e = 0 then
            match s with
            | [] => 1
            | a :: t => 1 + findFrom fuel r (some a) t
          else
            1 + findFrom fuel r (lastOf prev (s.take e)) (s.drop e)

/-- `len(re.findall(r, s))`: number of non-overlapping matches. -/
def findCount (r : Regex) (s : List Char) : Nat := findFrom (s.length + 1) r none s

/-- ASCII lower-casing of one character (Python `str.lower` on ASCII text). -/
def lowerChar (c : Char) : Char :=
  if 'A' ≤ c && c ≤ 'Z' then Char.ofNat (c.toNat + 32) else c

/-- `text.lower()` as a character list. -/
def lowerStr (s : String) : List Char := s.data.map lowerChar

/-- Python `c.isupper()` on the ASCII range. -/
def isUpperChar (c : Char) : Bool := 'A' ≤ c && c ≤ 'Z'

/-- Literal string regex. -/
def strLit (s : String) : Regex := s.data.foldr (fun c r => Regex.seq (Regex.lit c) r) Regex.eps

/-- Alternation of a list of regexes, left to right. -/
def altList : List Regex → Regex
  | [] => Regex.cls (fun _ => false)
  | [r] => r
  | r :: rs => Regex.alt r (altList rs)

/-- Sequence of a list of regexes. -/
def seqList : List Regex → Regex := fun rs => rs.foldr Regex.seq Regex.eps

/-- Alternation of literal words. -/
def wordAlt (ws : List String) : Regex := altList (ws.map strLit)

/-- `\s+` -/
def spacePlus : Regex := Regex.plus (Regex.cls isSpaceChar)

/-- `\w*` -/
def wordStar : Regex := Regex.star (Regex.cls isWordChar)

/-- `\w+` -/
def wordPlus : Regex := Regex.plus (Regex.cls isWordChar)

/-- `\d+` -/
def digitPlus : Regex := Regex.plus (Regex.cls isDigitChar)

/-- One atom of the URL pattern body:
`[a-zA-Z]|[0-9]|[$-_@.&+]|[!*\(\),]|(?:%[0-9a-fA-F][0-9a-fA-F])`. -/
def urlAtom : Regex :=
  altList [Regex.cls isAsciiAlpha, Regex.cls isDigitChar, Regex.cls isUrlRangeChar,
    Regex.cls isUrlPunctChar,
    seqList [Regex.lit '%', Regex.cls isHexChar, Regex.cls isHexChar]]

/-- `HATE_SPEECH_PATTERNS` from `content_moderation_api.py`. -/
def HATE_SPEECH_PATTERNS : List Regex :=
  [seqList [Regex.bnd, wordAlt ["kill", "murder", "death"], spacePlus,
      wordAlt ["all", "every"], spacePlus,
      wordAlt ["black", "white", "jew", "muslim", "gay", "trans"], wordStar, Regex.bnd],
   seqList [Regex.bnd, wordAlt ["hitler", "nazi", "supremacy", "genocide"], Regex.bnd],
   seqList [Regex.bnd,
      altList [strLit "rape", strLit "pedo",
        seqList [strLit "child", spacePlus, strLit "molest"]], wordStar, Regex.bnd],
   seqList [Regex.bnd, wordAlt ["bomb", "terrorist", "attack"], spacePlus,
      wordAlt ["all", "every"], spacePlus, wordPlus, Regex.bnd]]

/-- `SPAM_PATTERNS` from `content_moderation_api.py`. -/
def SPAM_PATTERNS : List Regex :=
  [seqList [Regex.bnd,
      altList [seqList [strLit "buy", spacePlus, strLit "now"],
        seqList [strLit "limited", spacePlus, strLit "time"],
        seqList [strLit "act", spacePlus, strLit "fast"],
        seqList [strLit "click", spacePlus, strLit "here"]], Regex.bnd],
   seqList [Regex.bnd,
      altList [seqList [strLit "free", spacePlus, strLit "offer"],
        seqList [strLit "money", spacePlus, strLit "back"],
        strLit "guaranteed",
        seqList [strLit "no", spacePlus, strLit "risk"]], Regex.bnd],
   seqList [Regex.bnd,
      altList [seqList [strLit "earn", spacePlus, Regex.lit '$', digitPlus],
        seqList [digitPlus, Regex.lit '%', spacePlus, strLit "off"],
        strLit "discount", strLit "sale"], Regex.bnd],
   seqList [strLit "http", Regex.opt (Regex.lit 's'), strLit "://", Regex.plus urlAtom]]

/-- `PROFANITY_PATTERNS` from `content_moderation_api.py`. -/
def PROFANITY_PATTERNS : List Regex :=
  [seqList [Regex.bnd,
      wordAlt ["fuck", "shit", "bitch", "asshole", "dick", "pussy", "cunt"],
      wordStar, Regex.bnd],
   seqList [Regex.bnd,
      wordAlt ["motherfucker", "fucker", "bastard", "whore", "slut"],
      wordStar, Regex.bnd]]

/-! ## Content moderation (`analyze_content`) -/

/-- `spam_count` of `analyze_content`: one per spam pattern with a match. -/
def spam_count (text : String) : Nat :=
  SPAM_PATTERNS.foldl (fun n p => if reSearch p (lowerStr text) then n + 1 else n) 0

/-- `profanity_count` of `analyze_content`: total `re.findall` matches. -/
def profanity_count (text : String) : Nat :=
  PROFANITY_PATTERNS.foldl (fun n p => n + findCount p (lowerStr text)) 0

/-- `caps_ratio` of `analyze_content` (`0` on empty text). -/
def caps_ratio (text : String) : ℚ :=
  if text.data.length ≠ 0
  then ((text.data.countP isUpperChar : ℚ) / (text.data.length : ℚ))
  else 0

/-- The `issues` list and the pre-strictness `risk_score` accumulated by
the four checks of `analyze_content`, in source order. -/
def issuesAndBase (text : String) : List String × ℚ :=
  let tl := lowerStr text
  let st1 := HATE_SPEECH_PATTERNS.foldl
    (fun acc p => if reSearch p tl then (acc.1 ++ ["hate_speech"], acc.2 + 4/5) else acc)
    ([], 0)
  let st2 := if spam_count text ≥ 2 then (st1.1 ++ ["spam"], st1.2 + 3/5) else st1
  let st3 := if profanity_count text > 0
    then (st2.1 ++ ["profanity"], st2.2 + 3/10 * ((min (profanity_count text) 3 : Nat) : ℚ))
    else st2
  if caps_ratio text > 7/10 ∧ text.data.length > 10
  then (st3.1 ++ ["excessive_caps"], st3.2 + 1/5)
  else st3

/-- `risk_score` after the strictness adjustment. -/
def risk_score (text strictness : String) : ℚ :=
  if strictness = "high" then (issuesAndBase text).2 * (3/2)
  else if strictness = "low" then (issuesAndBase text).2 * (7/10)
  else (issuesAndBase text).2

/-- The risk-level / suggested-action chain of `analyze_content`. -/
def classify (risk : ℚ) : String × String :=
  if risk ≥ 4/5 then ("critical", "block")
  else if risk ≥ 3/5 then ("high", "flag_for_review")
  else if risk ≥ 2/5 then ("medium", "warn")
  else ("low", "allow")

/-- The `moderation_details` dictionary of the response. -/
structure ModerationDetails where
  hate_speech_detected : Bool
  spam_detected : Bool
  profanity_count : Nat
  caps_ratio : ℚ
  text_length : Nat
  content_type : String
  strictness_level : String
  deriving DecidableEq, Repr

/-- The dictionary returned by `analyze_content`. -/
structure ModerationResult where
  is_appropriate : Bool
  confidence_score : ℚ
  flagged_issues : List String
  risk_level : String
  suggested_action : String
  moderation_details : ModerationDetails
  deriving DecidableEq, Repr

/-- `analyze_content(text, content_type, strictness)`. -/
def analyze_content (text content_type strictness : String) : ModerationResult :=
  { is_appropriate := decide (risk_score text strictness < 3/5)
    confidence_score := min 1 (risk_score text strictness)
    flagged_issues := (issuesAndBase text).1
    risk_level := (classify (risk_score text strictness)).1
    suggested_action := (classify (risk_score text strictness)).2
    moderation_details :=
      { hate_speech_detected := (issuesAndBase text).1.contains "hate_speech"
        spam_detected := (issuesAndBase text).1.contains "spam"
        profanity_count := profanity_count text
        caps_ratio := caps_ratio text
        text_length := text.data.length
        content_type := content_type
        strictness_level := strictness } }

/-! ## Sentiment analysis (`extract_emotions`) -/

/-- `EMOTION_KEYWORDS` from `sentiment_analysis_api.py`. -/
def EMOTION_KEYWORDS : List (String × List String) :=
  [("joy", ["happy", "excited", "great", "amazing", "wonderful", "fantastic", "love",
      "enjoy", "pleased", "thrilled"]),
   ("sadness", ["sad", "depressed", "unhappy", "miserable", "disappointed", "heartbroken",
      "grief", "sorrow", "melancholy"]),
   ("anger", ["angry", "furious", "mad", "irritated", "annoyed", "frustrated", "outraged",
      "livid", "enraged"]),
   ("fear", ["scared", "afraid", "terrified", "worried", "anxious", "nervous",
      "frightened", "panicked", "horrified"]),
   ("surprise", ["surprised", "shocked", "amazed", "astonished", "stunned", "bewildered",
      "startled"]),
   ("disgust", ["disgusted", "revolted", "sickened", "appalled", "repulsed", "nauseated"]),
   ("trust", ["trust", "confident", "reliable", "faithful", "loyal", "dependable",
      "secure"]),
   ("anticipation", ["excited", "eager", "hopeful", "optimistic", "enthusiastic",
      "looking forward"])]

/-- The per-keyword pattern `r'\b' + re.escape(keyword) + r'\b'`. -/
def wordPat (kw : String) : Regex := seqList [Regex.bnd, strLit kw, Regex.bnd]

/-- The `score` accumulated for one emotion over its keywords. -/
def emotionRaw (kws : List String) (tl : List Char) : Nat :=
  kws.foldl (fun n kw => n + findCount (wordPat kw) tl) 0

/-- `extract_emotions(text)`: the dictionary is built in keyword-table
order, inserting an entry only when the raw score is positive. -/
def extract_emotions (text : String) : List (String × ℚ) :=
  EMOTION_KEYWORDS.filterMap (fun ek =>
    if emotionRaw ek.2 (lowerStr text) > 0
    then some (ek.1, min 1 ((emotionRaw ek.2 (lowerStr text) : ℚ) / 3))
    else none)

/-! ## Crypto portfolio analytics -/

/-- A `PortfolioAsset` request item. -/
structure PortfolioAsset where
  symbol : String
  quantity : ℚ
  purchase_price : ℚ
  purchase_date : String
  deriving DecidableEq, Repr

/-- `MOCK_PRICES` from `crypto_analytics_api.py`. -/
def MOCK_PRICES : List (String × ℚ) :=
  [("BTC", 45000), ("ETH", 3200), ("ADA", 6/5), ("DOT", 51/2), ("LINK", 75/4),
   ("UNI", 123/10), ("SOL", 95), ("MATIC", 37/20), ("AVAX", 326/5), ("ATOM", 289/10)]

/-- ASCII upper-casing of one character (Python `str.upper` on ASCII text). -/
def upperChar (c : Char) : Char :=
  if 'a' ≤ c && c ≤ 'z' then Char.ofNat (c.toNat - 32) else c

/-- `symbol.upper()`. -/
def upperStr (s : String) : String := String.mk (s.data.map upperChar)

/-- `get_current_price`: mock table lookup on the upper-cased symbol,
default `0.0`. -/
def get_current_price (symbol : String) : ℚ :=
  (MOCK_PRICES.lookup (upperStr symbol)).getD 0

/-- One `asset_data` record of `calculate_portfolio_metrics`. -/
structure AssetData where
  symbol : String
  quantity : ℚ
  purchase_price : ℚ
  current_price : ℚ
  current_value : ℚ
  invested_value : ℚ
  profit_loss : ℚ
  profit_loss_percentage : ℚ
  weight : ℚ
  deriving DecidableEq, Repr

/-- The dictionary returned by `calculate_portfolio_metrics`. -/
structure PortfolioMetrics where
  portfolio_data : List AssetData
  total_invested : ℚ
  total_current_value : ℚ
  total_profit_loss : ℚ
  total_profit_loss_percentage : ℚ
  deriving DecidableEq, Repr

/-- The `asset_data` record built inside the first loop of
`calculate_portfolio_metrics` (weight filled in later). -/
def asset_record (a : PortfolioAsset) : AssetData :=
  { symbol := a.symbol, quantity := a.quantity, purchase_price := a.purchase_price,
    current_price := get_current_price a.symbol,
    current_value := a.quantity * get_current_price a.symbol,
    invested_value := a.quantity * a.purchase_price,
    profit_loss := a.quantity * get_current_price a.symbol - a.quantity * a.purchase_price,
    profit_loss_percentage :=
      if a.quantity * a.purchase_price > 0
      then (a.quantity * get_current_price a.symbol - a.quantity * a.purchase_price)
        / (a.quantity * a.purchase_price) * 100
      else 0,
    weight := 0 }

/-- `portfolio_data` after the first loop of `calculate_portfolio_metrics`. -/
def portfolio_pre (assets : List PortfolioAsset) : List AssetData :=
  assets.map asset_record

/-- `total_invested` accumulated by the first loop. -/
def total_invested_of (assets : List PortfolioAsset) : ℚ :=
  ((portfolio_pre assets).map (fun d => d.invested_value)).sum

/-- `total_current_value` accumulated by the first loop. -/
def total_value_of (assets : List PortfolioAsset) : ℚ :=
  ((portfolio_pre assets).map (fun d => d.current_value)).sum

/-- The weight assignment of the second loop of
`calculate_portfolio_metrics`. -/
def set_weight (total_current_value : ℚ) (d : AssetData) : AssetData :=
  { d with weight :=
      if total_current_value > 0 then d.current_value / total_current_value * 100 else 0 }

/-- `calculate_portfolio_metrics(assets)`.  The loop accumulating the two
totals is expressed as sums over the per-asset records; the second loop
fills in the percentage weights. -/
def calculate_portfolio_metrics (assets : List PortfolioAsset) : PortfolioMetrics :=
  { portfolio_data := (portfolio_pre assets).map (set_weight (total_value_of assets))
    total_invested := total_invested_of assets
    total_current_value := total_value_of assets
    total_profit_loss := total_value_of assets - total_invested_of assets
    total_profit_loss_percentage :=
      if total_invested_of assets > 0
      then (total_value_of assets - total_invested_of assets) / total_invested_of assets * 100
      else 0 }

/-- Sample variance `Σ (x - mean)² / (n - 1)`.  Python's
`statistics.stdev` is the square root of this; the square root is
irrational over ℚ, so the risk record below carries the variance. -/
def sample_variance (l : List ℚ) : ℚ :=
  let mean := l.sum / (l.length : ℚ)
  (l.map (fun x => (x - mean) ^ 2)).sum / ((l.length : ℚ) - 1)

/-- The dictionary returned by `analyze_risk`.  The fields that the empty
branch of the source does not set are `Option`s (`none` = key absent). -/
structure RiskAnalysis where
  risk_level : String
  diversification_score : ℚ
  concentration_risk : String
  herfindahl_index : Option ℚ
  max_position_weight : Option ℚ
  volatility_sample_variance : Option ℚ
  asset_count : Option Nat
  deriving DecidableEq, Repr

/-- The `weights` list of `analyze_risk`. -/
def weights_of (portfolio_data : List AssetData) : List ℚ :=
  portfolio_data.map (fun a => a.weight)

/-- `max(weights) if weights else 0`. -/
def max_weight_of (portfolio_data : List AssetData) : ℚ :=
  match (weights_of portfolio_data).maximum with
  | some m => m
  | none => 0

/-- The Herfindahl-Hirschman index `sum(w**2 for w in weights)`. -/
def hhi_of (portfolio_data : List AssetData) : ℚ :=
  ((weights_of portfolio_data).map (fun w => w ^ 2)).sum

/-- The risk-level / concentration-risk chain of `analyze_risk`. -/
def risk_levels (hhi : ℚ) : String × String :=
  if hhi > 1/4 then ("high", "high")
  else if hhi > 3/20 then ("medium", "medium")
  else ("low", "low")

/-- The mock volatility: `statistics.stdev` of the per-asset profit/loss
percentages when there are at least two, else 0 (kept as the variance). -/
def volatility_var_of (portfolio_data : List AssetData) : ℚ :=
  if (portfolio_data.map (fun a => a.profit_loss_percentage)).length > 1
  then sample_variance (portfolio_data.map (fun a => a.profit_loss_percentage))
  else 0

/-- `analyze_risk(portfolio_data)`. -/
def analyze_risk (portfolio_data : List AssetData) : RiskAnalysis :=
  if portfolio_data.isEmpty then
    { risk_level := "unknown", diversification_score := 0, concentration_risk := "high",
      herfindahl_index := none, max_position_weight := none,
      volatility_sample_variance := none, asset_count := none }
  else
    { risk_level := (risk_levels (hhi_of portfolio_data)).1
      diversification_score := max 0 (100 - hhi_of portfolio_data * 100)
      concentration_risk := (risk_levels (hhi_of portfolio_data)).2
      herfindahl_index := some (hhi_of portfolio_data)
      max_position_weight := some (max_weight_of portfolio_data)
      volatility_sample_variance := some (volatility_var_of portfolio_data)
      asset_count := some portfolio_data.length }

/-! ## Spec-side definitions (for refinement comparisons) -/

/-- The moderation module's ThresholdBand, in ascending lower-bound order,
as the spec describes it (the unconditional low band given lower bound 0,
the bottom of the declared score range). -/
def THRESHOLD_BANDS : List (ℚ × String × String) :=
  [(0, "low", "allow"), (2/5, "medium", "warn"),
   (3/5, "high", "flag_for_review"), (4/5, "critical", "block")]

/-- Scan bands, returning the first whose lower bound is ≤ the score. -/
def bandLookup : List (ℚ × String × String) → ℚ → Option (String × String)
  | [], _ => none
  | (lb, label, action) :: rest, s =>
      if lb ≤ s then some (label, action) else bandLookup rest s

/-- Modelled from the spec (Classifier contract): scan the bands from the
highest lower bound downward and return the first band whose lower bound
is ≤ the score; `none` models the InvalidConfiguration failure when no
band matches. -/
def classifyBands (s : ℚ) : Option (String × String) :=
  bandLookup THRESHOLD_BANDS.reverse s

/-- Modelled from the spec (Signal Extractor contract): the count of a
pattern group is the number of non-overlapping case-insensitive matches
of the group's rules in the text, summed over the rules. -/
def specGroupCount (ps : List Regex) (text : String) : Nat :=
  (ps.map (fun p => findCount p (lowerStr text))).sum

/-- The per-group transfer functions the spec's Score Aggregator allows:
identity, capped linear, presence indicator. -/
inductive FShape where
  | fid : FShape
  | fcap (cap : Nat) : FShape
  | fpres : FShape

/-- Apply a spec transfer function to a count. -/
def FShape.apply : FShape → Nat → ℚ
  | .fid, n => (n : ℚ)
  | .fcap cap, n => ((min n cap : Nat) : ℚ)
  | .fpres, n => if n > 0 then 1 else 0

/-- The strictness multiplier of the spec and the source. -/
def multiplier (strictness : String) : ℚ :=
  if strictness = "high" then 3/2 else if strictness = "low" then 7/10 else 1

/-- The excessive-caps signal as a 0/1 count (the group has no match
rules; its signal is the caps-ratio test of the source). -/
def capsSignal (text : String) : Nat :=
  if caps_ratio text > 7/10 ∧ text.data.length > 10 then 1 else 0

/-- Modelled from the spec (Score Aggregator contract): the aggregated
score `multiplier * Σ (weight g * f g (count g))` of claim C1, with the
transfer functions of the hate-speech, spam and caps groups free and the
profanity group capped linear at 3 as the claim fixes it. -/
def claimScore (fh fs fc : FShape) (text strictness : String) : ℚ :=
  multiplier strictness *
    (4/5 * fh.apply (specGroupCount HATE_SPEECH_PATTERNS text)
     + 3/5 * fs.apply (specGroupCount SPAM_PATTERNS text)
     + 3/10 * ((min (specGroupCount PROFANITY_PATTERNS text) 3 : Nat) : ℚ)
     + 1/5 * fc.apply (capsSignal text))

/-- Number of hate-speech patterns with at least one match (what the
source's hate-speech loop effectively counts). -/
def hate_pattern_hits (text : String) : Nat :=
  HATE_SPEECH_PATTERNS.countP (fun p => reSearch p (lowerStr text))

/-- Number of spam patterns with at least one match. -/
def spam_pattern_hits (text : String) : Nat :=
  SPAM_PATTERNS.countP (fun p => reSearch p (lowerStr text))

/-- The aggregation formula the source actually implements: 0.8 per
matching hate pattern, 0.6 if at least two spam patterns match, 0.3 times
the profanity match count capped at 3, 0.2 for excessive caps. -/
def base_formula (text : String) : ℚ :=
  4/5 * (hate_pattern_hits text : ℚ)
  + 3/5 * (if spam_pattern_hits text ≥ 2 then 1 else 0)
  + 3/10 * ((min (profanity_count text) 3 : Nat) : ℚ)
  + 1/5 * (capsSignal text : ℚ)

/-! ## Helper lemmas -/

/-- A fold appending a tag and adding a weight per matching element:
its score component counts the matches. -/
lemma foldl_tag_weight (f : Regex → Bool) (tag : String) (w : ℚ)
    (l : List Regex) (acc : List String × ℚ) :
    (l.foldl (fun a p => if f p then (a.1 ++ [tag], a.2 + w) else a) acc).2
      = acc.2 + w * (l.countP f : ℚ) := by
  induction l generalizing acc with
  | nil => simp
  | cons p t ih =>
      by_cases h : f p
      · simp only [List.foldl_cons, h, if_pos, List.countP_cons, ih]
        push_cast [h]
        ring
      · simp only [List.foldl_cons, h, if_neg, List.countP_cons, ih]
        simp [h]

/-- A fold incrementing per matching element counts the matches. -/
lemma foldl_count {α : Type} (f : α → Bool) (l : List α) (n : Nat) :
    l.foldl (fun n p => if f p then n + 1 else n) n = n + l.countP f := by
  induction l generalizing n with
  | nil => simp
  | cons p t ih =>
      by_cases h : f p <;> simp [h, ih] <;> omega

/-- A fold adding a value per element is the sum of the mapped list. -/
lemma foldl_add_sum {α : Type} (g : α → Nat) (l : List α) (n : Nat) :
    l.foldl (fun n p => n + g p) n = n + (l.map g).sum := by
  induction l generalizing n with
  | nil => simp
  | cons p t ih => simp [ih]; omega

/-- `spam_count` counts the spam patterns with a match. -/
lemma spam_count_eq (text : String) : spam_count text = spam_pattern_hits text := by
  unfold spam_count spam_pattern_hits
  simpa using foldl_count (fun p => reSearch p (lowerStr text)) SPAM_PATTERNS 0

/-- `profanity_count` is the total number of matches over the profanity
patterns. -/
lemma profanity_count_eq (text : String) :
    profanity_count text = specGroupCount PROFANITY_PATTERNS text := by
  unfold profanity_count specGroupCount
  simpa using foldl_add_sum (fun p => findCount p (lowerStr text)) PROFANITY_PATTERNS 0

/-- The accumulated pre-strictness score equals the closed formula. -/
lemma issuesAndBase_snd (text : String) :
    (issuesAndBase text).2 = base_formula text := by
  unfold issuesAndBase base_formula capsSignal hate_pattern_hits
  rw [spam_count_eq]
  have h1 := foldl_tag_weight (fun p => reSearch p (lowerStr text)) "hate_speech" (4/5)
    HATE_SPEECH_PATTERNS ([], 0)
  split_ifs <;> dsimp only <;> rw [h1] <;> push_cast <;>
    try rw [show (profanity_count text) = 0 from by omega]
  all_goals norm_num

/-- `risk_score` equals the strictness multiplier times the closed formula. -/
lemma risk_score_eq (text strictness : String) :
    risk_score text strictness = multiplier strictness * base_formula text := by
  unfold risk_score multiplier
  rw [issuesAndBase_snd]
  by_cases h1 : strictness = "high" <;> by_cases h2 : strictness = "low" <;>
    simp [h1, h2] <;> ring

/-- The closed formula is non-negative. -/
lemma base_formula_nonneg (text : String) : 0 ≤ base_formula text := by
  unfold base_formula
  have h1 : (0 : ℚ) ≤ (hate_pattern_hits text : ℚ) := Nat.cast_nonneg _
  have h2 : (0 : ℚ) ≤ ((min (profanity_count text) 3 : Nat) : ℚ) := Nat.cast_nonneg _
  have h3 : (0 : ℚ) ≤ (capsSignal text : ℚ) := Nat.cast_nonneg _
  by_cases hs : spam_pattern_hits text ≥ 2 <;> simp [hs] <;> positivity

/-- The strictness multiplier is positive. -/
lemma multiplier_pos (strictness : String) : 0 < multiplier strictness := by
  unfold multiplier
  by_cases h1 : strictness = "high" <;> by_cases h2 : strictness = "low" <;>
    simp [h1, h2] <;> norm_num

/-- The strictness multiplier at "medium". -/
lemma multiplier_medium : multiplier "medium" = 1 := by
  unfold multiplier
  rw [if_neg (by decide), if_neg (by decide)]

/-- The adjusted risk score is non-negative. -/
lemma risk_score_nonneg (text strictness : String) : 0 ≤ risk_score text strictness := by
  rw [risk_score_eq]
  exact mul_nonneg (le_of_lt (multiplier_pos strictness)) (base_formula_nonneg text)

/-- The classifier agrees with the spec's band scan on non-negative scores. -/
lemma classifyBands_eq_classify (s : ℚ) (hs : 0 ≤ s) :
    classifyBands s = some (classify s) := by
  have hrev : THRESHOLD_BANDS.reverse
      = [(4/5, "critical", "block"), (3/5, "high", "flag_for_review"),
         (2/5, "medium", "warn"), (0, "low", "allow")] := by rfl
  unfold classifyBands
  rw [hrev]
  simp only [bandLookup]
  unfold classify
  split_ifs <;> first | rfl | (exfalso; linarith)

/-- Clamping the score to 1 never moves it across a band boundary. -/
lemma classify_min_one (s : ℚ) : classify (min 1 s) = classify s := by
  rcases le_or_lt 1 s with h | h
  · rw [min_eq_left h]
    unfold classify
    rw [if_pos (by norm_num), if_pos (by linarith)]
  · rw [min_eq_right (le_of_lt h)]

/-- The four labels the classifier can produce, with their actions. -/
lemma classify_cases (s : ℚ) :
    (s ≥ 4/5 ∧ classify s = ("critical", "block"))
    ∨ (s < 4/5 ∧ s ≥ 3/5 ∧ classify s = ("high", "flag_for_review"))
    ∨ (s < 3/5 ∧ s ≥ 2/5 ∧ classify s = ("medium", "warn"))
    ∨ (s < 2/5 ∧ classify s = ("low", "allow")) := by
  unfold classify
  by_cases h1 : s ≥ 4/5
  · exact Or.inl ⟨h1, by rw [if_pos h1]⟩
  · by_cases h2 : s ≥ 3/5
    · exact Or.inr (Or.inl ⟨by linarith [not_le.mp h1], h2, by rw [if_neg h1, if_pos h2]⟩)
    · by_cases h3 : s ≥ 2/5
      · exact Or.inr (Or.inr (Or.inl ⟨by linarith [not_le.mp h2], h3,
          by rw [if_neg h1, if_neg h2, if_pos h3]⟩))
      · exact Or.inr (Or.inr (Or.inr ⟨by linarith [not_le.mp h3],
          by rw [if_neg h1, if_neg h2, if_neg h3]⟩))

/-- A text with no ASCII upper-case characters has caps ratio 0. -/
lemma caps_ratio_of_no_upper (text : String) (h : text.data.countP isUpperChar = 0) :
    caps_ratio text = 0 := by
  unfold caps_ratio
  rw [h]
  simp

/-- A text with no ASCII upper-case characters never triggers the
excessive-caps signal. -/
lemma capsSignal_of_no_upper (text : String) (h : text.data.countP isUpperChar = 0) :
    capsSignal text = 0 := by
  unfold capsSignal
  rw [if_neg]
  rw [caps_ratio_of_no_upper text h]
  rintro ⟨hgt, -⟩
  norm_num at hgt

/-- Every admissible transfer function sends count 0 to 0. -/
lemma FShape.apply_zero : ∀ f : FShape, f.apply 0 = 0
  | .fid => by simp [FShape.apply]
  | .fcap c => by simp [FShape.apply]
  | .fpres => by simp [FShape.apply]

/-- In a list with no duplicate keys, any member sharing the key of
`(a, b)` has value `b`. -/
lemma key_unique {β : Type} (l : List (String × β)) (hnd : (l.map Prod.fst).Nodup)
    (a : String) (b : β) (hab : (a, b) ∈ l) (p : String × β) (hp : p ∈ l)
    (hpa : p.1 = a) : p.2 = b := by
  induction l with
  | nil => cases hab
  | cons q t ih =>
      rw [List.map_cons, List.nodup_cons] at hnd
      rcases List.mem_cons.mp hab with he | hab2 <;> rcases List.mem_cons.mp hp with hpq | hpt
      · rw [hpq, ← he]
      · exfalso
        have hmem : a ∈ t.map Prod.fst := by
          have hm := List.mem_map_of_mem Prod.fst hpt
          rwa [hpa] at hm
        have hq1 : q.1 = a := by rw [← he]
        exact hnd.1 (by rw [hq1]; exact hmem)
      · exfalso
        have hmem : a ∈ t.map Prod.fst := List.mem_map_of_mem Prod.fst hab2
        have hq1 : q.1 = a := by rw [← hpq, hpa]
        exact hnd.1 (by rw [hq1]; exact hmem)
      · exact ih hnd.2 hab2 hpt

/-- If every keyword group keyed `e` has raw score 0, the emotion
dictionary built over `l` has no entry for `e`. -/
lemma lookup_emotions_aux (text : String) (e : String) (l : List (String × List String))
    (h : ∀ p ∈ l, p.1 = e → emotionRaw p.2 (lowerStr text) = 0) :
    (l.filterMap (fun ek =>
      if emotionRaw ek.2 (lowerStr text) > 0
      then some (ek.1, min 1 ((emotionRaw ek.2 (lowerStr text) : ℚ) / 3))
      else none)).lookup e = none := by
  induction l with
  | nil => rfl
  | cons p t ih =>
      rw [List.filterMap_cons]
      by_cases hp : emotionRaw p.2 (lowerStr text) > 0
      · rw [if_pos hp]
        have hne : (e == p.1) = false := by
          rw [beq_eq_false_iff_ne]
          intro he
          have h0 := h p (List.mem_cons_self p t) he.symm
          omega
        rw [show ∀ x : String × ℚ, ∀ r : List (String × ℚ),
            List.lookup e (x :: r) = if e == x.1 then some x.2 else List.lookup e r
          from fun x r => by
            rcases x with ⟨k, v⟩
            simp only [List.lookup]
            rcases hek : e == k with _ | _ <;> simp]
        rw [hne]
        simp only [Bool.false_eq_true, if_false]
        exact ih (fun q hq => h q (List.mem_cons_of_mem p hq))
      · rw [if_neg hp]
        exact ih (fun q hq => h q (List.mem_cons_of_mem p hq))

/-- Pulling a division-then-scaling out of a list sum. -/
lemma sum_map_div_mul (l : List AssetData) (T : ℚ) :
    (l.map (fun d => d.current_value / T * 100)).sum
      = (l.map (fun d => d.current_value)).sum / T * 100 := by
  induction l with
  | nil => simp
  | cons a t ih =>
      simp only [List.map_cons, List.sum_cons, ih]
      ring

/-- Discrete Cauchy-Schwarz on a list: the square of the sum is at most
the length times the sum of squares. -/
lemma list_sq_sum_le (l : List ℚ) :
    l.sum ^ 2 ≤ (l.length : ℚ) * (l.map (fun x => x ^ 2)).sum := by
  have h1 : l.sum = ∑ i : Fin l.length, l.get i := by
    conv_lhs => rw [← List.ofFn_get l]
    rw [List.sum_ofFn]
  have h2 : (l.map (fun x => x ^ 2)).sum = ∑ i : Fin l.length, (l.get i) ^ 2 := by
    conv_lhs => rw [← List.ofFn_get l]
    rw [List.map_ofFn, List.sum_ofFn]
    rfl
  rw [h1, h2]
  have h := @sq_sum_le_card_mul_sum_sq (Fin l.length) ℚ _ _ Finset.univ (fun i => l.get i)
  simpa using h

/-! ## Claims -/

/-- C2: for every score the moderation pipeline produces, the classifier
returns exactly the (label, action) pair of the band with the highest
lower bound that is ≤ the score, and the spec-side band scan never fails
(never returns `none`, i.e. no InvalidConfiguration): the low band makes
the coverage exhaustive over the scores that occur. -/
theorem C2_classifier_matches_bands (text content_type strictness : String) :
    classifyBands (risk_score text strictness)
      = some ((analyze_content text content_type strictness).risk_level,
              (analyze_content text content_type strictness).suggested_action) := by
  rw [classifyBands_eq_classify (risk_score text strictness)
    (risk_score_nonneg text strictness)]
  rfl

/-- C3: the `confidence_score` returned by `analyze_content` always lies
in the closed interval [0, 1]. -/
theorem C3_confidence_in_unit_interval (text content_type strictness : String) :
    0 ≤ (analyze_content text content_type strictness).confidence_score
    ∧ (analyze_content text content_type strictness).confidence_score ≤ 1 := by
  simp only [analyze_content]
  exact ⟨le_min (by norm_num) (risk_score_nonneg text strictness), min_le_left 1 _⟩

/-- C6: the moderation pipeline is deterministic — two invocations of
`analyze_content` with identical arguments return identical results in
every field. -/
theorem C6_deterministic (t1 c1 s1 t2 c2 s2 : String)
    (ht : t1 = t2) (hc : c1 = c2) (hs : s1 = s2) :
    analyze_content t1 c1 s1 = analyze_content t2 c2 s2 := by
  rw [ht, hc, hs]

/-- Witness for C6 at a concrete invocation. -/
theorem C6_deterministic_witness :
    analyze_content "BUY NOW limited time!!!" "social_media" "high"
      = analyze_content "BUY NOW limited time!!!" "social_media" "high" :=
  C6_deterministic "BUY NOW limited time!!!" "social_media" "high"
    "BUY NOW limited time!!!" "social_media" "high" rfl rfl rfl

/-- C9: `is_appropriate` is true exactly when the risk level is "low" or
"medium", equivalently exactly when the suggested action is "allow" or
"warn" — all three read off the same `risk_score < 0.6` threshold. -/
theorem C9_appropriate_iff_low_or_medium (text content_type strictness : String) :
    ((analyze_content text content_type strictness).is_appropriate = true
      ↔ ((analyze_content text content_type strictness).risk_level = "low"
         ∨ (analyze_content text content_type strictness).risk_level = "medium"))
    ∧ ((analyze_content text content_type strictness).is_appropriate = true
      ↔ ((analyze_content text content_type strictness).suggested_action = "allow"
         ∨ (analyze_content text content_type strictness).suggested_action = "warn")) := by
  simp only [analyze_content, decide_eq_true_eq]
  rcases classify_cases (risk_score text strictness) with
    ⟨h, hc⟩ | ⟨h1, h2, hc⟩ | ⟨h1, h2, hc⟩ | ⟨h, hc⟩ <;> rw [hc]
  · exact ⟨iff_of_false (not_lt.mpr (by linarith)) (by decide),
           iff_of_false (not_lt.mpr (by linarith)) (by decide)⟩
  · exact ⟨iff_of_false (not_lt.mpr h2) (by decide),
           iff_of_false (not_lt.mpr h2) (by decide)⟩
  · exact ⟨iff_of_true h1 (by decide), iff_of_true h1 (by decide)⟩
  · exact ⟨iff_of_true (by linarith) (by decide), iff_of_true (by linarith) (by decide)⟩

/-- C10: classifying the unclamped risk score (as the code does) agrees
with classifying the clamped score reported as `confidence_score`;
clamping at 1 never changes the assigned band. -/
theorem C10_clamp_preserves_band (text content_type strictness : String) :
    classify ((analyze_content text content_type strictness).confidence_score)
      = ((analyze_content text content_type strictness).risk_level,
         (analyze_content text content_type strictness).suggested_action) := by
  simp only [analyze_content]
  rw [classify_min_one]

/-- C7: a text matching exactly one hate-speech pattern once and no other
signal (no spam, no profanity, caps ratio ≤ 0.7), under strictness
"medium" (multiplier 1.0), scores 0.8 and is classified critical/block. -/
theorem C7_single_hate_hit_is_critical (text content_type : String)
    (hh1 : hate_pattern_hits text = 1)
    (hh2 : specGroupCount HATE_SPEECH_PATTERNS text = 1)
    (hs : spam_count text = 0)
    (hp : profanity_count text = 0)
    (hc : caps_ratio text ≤ 7/10) :
    (analyze_content text content_type "medium").confidence_score = 4/5
    ∧ (analyze_content text content_type "medium").risk_level = "critical"
    ∧ (analyze_content text content_type "medium").suggested_action = "block" := by
  have hcaps : capsSignal text = 0 := by
    unfold capsSignal
    rw [if_neg]
    rintro ⟨hgt, -⟩
    exact absurd hgt (not_lt.mpr hc)
  rw [spam_count_eq] at hs
  have hrisk : risk_score text "medium" = 4/5 := by
    rw [risk_score_eq, multiplier_medium]
    unfold base_formula
    rw [hh1, hs, hp, hcaps]
    norm_num
  have hcl : classify ((4:ℚ)/5) = ("critical", "block") := by
    unfold classify
    rw [if_pos (by norm_num)]
  simp only [analyze_content]
  rw [hrisk, hcl]
  refine ⟨?_, rfl, rfl⟩
  rw [min_eq_right]
  norm_num

/-- Witness for C7 at the text "nazi". -/
theorem C7_single_hate_hit_witness :
    hate_pattern_hits "nazi" = 1
    ∧ specGroupCount HATE_SPEECH_PATTERNS "nazi" = 1
    ∧ spam_count "nazi" = 0
    ∧ profanity_count "nazi" = 0
    ∧ caps_ratio "nazi" ≤ 7/10
    ∧ (analyze_content "nazi" "general" "medium").confidence_score = 4/5
    ∧ (analyze_content "nazi" "general" "medium").risk_level = "critical"
    ∧ (analyze_content "nazi" "general" "medium").suggested_action = "block" := by
  have hc : caps_ratio "nazi" ≤ 7/10 := by
    rw [caps_ratio_of_no_upper "nazi" (by decide)]
    norm_num
  have h := C7_single_hate_hit_is_critical "nazi" "general"
    (by decide) (by decide) (by decide) (by decide) hc
  exact ⟨by decide, by decide, by decide, by decide, hc, h.1, h.2.1, h.2.2⟩

/-- C1 (counterexample): no choice of identity / capped-linear / presence
transfer functions for the hate-speech, spam and caps groups makes the
spec's aggregation formula agree with the source's risk score on all
inputs: the texts "guaranteed" (one spam match, score 0) and
"buy now guaranteed" (two spam matches, score 0.6) rule every choice out,
because the source adds the spam weight only when at least two spam
patterns match. -/
theorem C1_counterexample :
    ¬ ∃ fh fs fc : FShape, ∀ text strictness : String,
        risk_score text strictness = claimScore fh fs fc text strictness := by
  rintro ⟨fh, fs, fc, h⟩
  have hcaps1 : capsSignal "guaranteed" = 0 := capsSignal_of_no_upper _ (by decide)
  have hcaps2 : capsSignal "buy now guaranteed" = 0 := capsSignal_of_no_upper _ (by decide)
  have e1 : risk_score "guaranteed" "medium" = 0 := by
    rw [risk_score_eq, multiplier_medium]
    unfold base_formula
    rw [show hate_pattern_hits "guaranteed" = 0 from by decide,
        show spam_pattern_hits "guaranteed" = 1 from by decide,
        show profanity_count "guaranteed" = 0 from by decide, hcaps1]
    norm_num
  have e2 : risk_score "buy now guaranteed" "medium" = 3/5 := by
    rw [risk_score_eq, multiplier_medium]
    unfold base_formula
    rw [show hate_pattern_hits "buy now guaranteed" = 0 from by decide,
        show spam_pattern_hits "buy now guaranteed" = 2 from by decide,
        show profanity_count "buy now guaranteed" = 0 from by decide, hcaps2]
    norm_num
  have c1 : claimScore fh fs fc "guaranteed" "medium" = 3/5 * fs.apply 1 := by
    unfold claimScore
    rw [multiplier_medium]
    rw [show specGroupCount HATE_SPEECH_PATTERNS "guaranteed" = 0 from by decide,
        show specGroupCount SPAM_PATTERNS "guaranteed" = 1 from by decide,
        show specGroupCount PROFANITY_PATTERNS "guaranteed" = 0 from by decide, hcaps1,
        FShape.apply_zero fh, FShape.apply_zero fc]
    norm_num
  have c2 : claimScore fh fs fc "buy now guaranteed" "medium" = 3/5 * fs.apply 2 := by
    unfold claimScore
    rw [multiplier_medium]
    rw [show specGroupCount HATE_SPEECH_PATTERNS "buy now guaranteed" = 0 from by decide,
        show specGroupCount SPAM_PATTERNS "buy now guaranteed" = 2 from by decide,
        show specGroupCount PROFANITY_PATTERNS "buy now guaranteed" = 0 from by decide,
        hcaps2, FShape.apply_zero fh, FShape.apply_zero fc]
    norm_num
  have q1 : (3:ℚ)/5 * fs.apply 1 = 0 := by rw [← c1, ← h "guaranteed" "medium"]; exact e1
  have q2 : (3:ℚ)/5 * fs.apply 2 = 3/5 := by
    rw [← c2, ← h "buy now guaranteed" "medium"]; exact e2
  have hf1 : fs.apply 1 = 0 := by linarith
  have hf2 : fs.apply 2 = 1 := by linarith
  cases fs with
  | fid => norm_num [FShape.apply] at hf1
  | fpres => norm_num [FShape.apply] at hf1
  | fcap c =>
      simp only [FShape.apply] at hf1 hf2
      have h1 : min 1 c = 0 := by exact_mod_cast hf1
      have h2 : min 2 c = 1 := by exact_mod_cast hf2
      omega

/-- C1 (amended): the source's aggregated risk score equals
`multiplier * (0.8 * (number of hate patterns with a match)
+ 0.6 * [at least two spam patterns match] + 0.3 * min(profanity matches, 3)
+ 0.2 * [excessive caps])` — per-rule presence counts for hate speech, a
threshold-at-two indicator (not a presence indicator) for spam, capped
linear for profanity, presence for caps, with multiplier 1.5 for "high",
0.7 for "low" and 1.0 otherwise. -/
theorem C1_amended_aggregation (text strictness : String) :
    risk_score text strictness
      = multiplier strictness
        * (4/5 * (hate_pattern_hits text : ℚ)
           + 3/5 * (if spam_pattern_hits text ≥ 2 then 1 else 0)
           + 3/10 * ((min (profanity_count text) 3 : Nat) : ℚ)
           + 1/5 * (capsSignal text : ℚ)) := by
  rw [risk_score_eq]
  rfl

/-- C4 (counterexample): on "sale sale" the source's spam count is 1 (one
pattern with a match) while the number of non-overlapping matches of the
spam group's rules is 2, so the extractor's count is not the match count. -/
theorem C4_counterexample :
    spam_count "sale sale" ≠ specGroupCount SPAM_PATTERNS "sale sale"
    ∧ spam_count "sale sale" = 1
    ∧ specGroupCount SPAM_PATTERNS "sale sale" = 2 :=
  ⟨by decide, by decide, by decide⟩

/-- C4 (amended): the hate-speech and spam counts of the moderation module
are per-rule presence counts — the number of the group's patterns with at
least one match — while the profanity count and the per-emotion raw scores
of the sentiment module are the total number of non-overlapping
case-insensitive matches summed over the group's rules. -/
theorem C4_amended_extractor_counts (text : String) :
    spam_count text = SPAM_PATTERNS.countP (fun p => reSearch p (lowerStr text))
    ∧ profanity_count text = specGroupCount PROFANITY_PATTERNS text
    ∧ ∀ ek ∈ EMOTION_KEYWORDS,
        emotionRaw ek.2 (lowerStr text)
          = (ek.2.map (fun kw => findCount (wordPat kw) (lowerStr text))).sum := by
  refine ⟨?_, profanity_count_eq text, ?_⟩
  · rw [spam_count_eq]
    rfl
  · intro ek hm
    unfold emotionRaw
    simpa using foldl_add_sum (fun kw => findCount (wordPat kw) (lowerStr text)) ek.2 0

/-- Witness for the amended C4 at "sale sale" and the disgust group. -/
theorem C4_amended_witness :
    spam_count "sale sale"
      = SPAM_PATTERNS.countP (fun p => reSearch p (lowerStr "sale sale"))
    ∧ emotionRaw ["disgusted", "revolted", "sickened", "appalled", "repulsed", "nauseated"]
        (lowerStr "sale sale")
      = (["disgusted", "revolted", "sickened", "appalled", "repulsed", "nauseated"].map
          (fun kw => findCount (wordPat kw) (lowerStr "sale sale"))).sum :=
  ⟨(C4_amended_extractor_counts "sale sale").1,
   (C4_amended_extractor_counts "sale sale").2.2
     ("disgust", ["disgusted", "revolted", "sickened", "appalled", "repulsed", "nauseated"])
     (by decide)⟩

/-- C5 (counterexample): on "hello" no emotion keyword occurs and
`extract_emotions` returns the empty mapping — there is no entry (of 0 or
otherwise) for "joy" or any other emotion. -/
theorem C5_counterexample :
    extract_emotions "hello" = []
    ∧ List.lookup "joy" (extract_emotions "hello") = none := by
  have h : extract_emotions "hello" = [] := by decide
  exact ⟨h, by rw [h]; rfl⟩

/-- C5 (amended): an emotion whose keywords have no match in the text is
absent from the mapping returned by `extract_emotions` (no error, and no
zero entry either); only emotions with a positive raw score get an entry. -/
theorem C5_amended_no_match_absent (text e : String) (kws : List String)
    (hmem : (e, kws) ∈ EMOTION_KEYWORDS)
    (hraw : emotionRaw kws (lowerStr text) = 0) :
    List.lookup e (extract_emotions text) = none := by
  unfold extract_emotions
  apply lookup_emotions_aux
  intro p hp hpe
  have hnd : (EMOTION_KEYWORDS.map Prod.fst).Nodup := by decide
  have hval : p.2 = kws := key_unique EMOTION_KEYWORDS hnd e kws hmem p hp hpe
  rw [hval]
  exact hraw

/-- Witness for the amended C5: "joy" is absent from the emotions of
"hello". -/
theorem C5_amended_witness :
    ("joy", ["happy", "excited", "great", "amazing", "wonderful", "fantastic", "love",
       "enjoy", "pleased", "thrilled"]) ∈ EMOTION_KEYWORDS
    ∧ emotionRaw ["happy", "excited", "great", "amazing", "wonderful", "fantastic", "love",
        "enjoy", "pleased", "thrilled"] (lowerStr "hello") = 0
    ∧ List.lookup "joy" (extract_emotions "hello") = none :=
  ⟨by decide, by decide,
   C5_amended_no_match_absent "hello" "joy"
     ["happy", "excited", "great", "amazing", "wonderful", "fantastic", "love",
      "enjoy", "pleased", "thrilled"] (by decide) (by decide)⟩

/-- C8: for any portfolio of 1 to 10000 assets with positive total current
value, the position weights produced by `calculate_portfolio_metrics` are
percentages summing to 100, so the Herfindahl index computed by
`analyze_risk` is at least 1 (Cauchy-Schwarz), far above the fractional
thresholds 0.25 and 0.15: the result is always risk "high", concentration
"high", and diversification score 0. -/
theorem C8_percentage_weights_force_high_risk (assets : List PortfolioAsset)
    (h1 : 1 ≤ assets.length) (h2 : assets.length ≤ 10000)
    (h3 : 0 < (calculate_portfolio_metrics assets).total_current_value) :
    (analyze_risk (calculate_portfolio_metrics assets).portfolio_data).risk_level = "high"
    ∧ (analyze_risk (calculate_portfolio_metrics assets).portfolio_data).concentration_risk
        = "high"
    ∧ (analyze_risk (calculate_portfolio_metrics assets).portfolio_data).diversification_score
        = 0 := by
  have hT : (calculate_portfolio_metrics assets).total_current_value
      = total_value_of assets := rfl
  rw [hT] at h3
  have hdata : (calculate_portfolio_metrics assets).portfolio_data
      = (portfolio_pre assets).map (set_weight (total_value_of assets)) := rfl
  rw [hdata]
  set data := (portfolio_pre assets).map (set_weight (total_value_of assets)) with hD
  have hw : weights_of data
      = (portfolio_pre assets).map
          (fun d => d.current_value / total_value_of assets * 100) := by
    rw [hD]
    unfold weights_of set_weight
    rw [List.map_map]
    simp [Function.comp, h3]
  have hsum : (weights_of data).sum = 100 := by
    rw [hw, sum_map_div_mul]
    have hTsum : ((portfolio_pre assets).map (fun d => d.current_value)).sum
        = total_value_of assets := rfl
    rw [hTsum]
    field_simp
  have hlenw : (weights_of data).length = assets.length := by
    rw [hw]
    unfold portfolio_pre
    simp
  have hcs := list_sq_sum_le (weights_of data)
  rw [hsum, hlenw] at hcs
  have hhhi : ((weights_of data).map (fun x => x ^ 2)).sum = hhi_of data := rfl
  rw [hhhi] at hcs
  have hnle : ((assets.length : ℚ)) ≤ 10000 := by exact_mod_cast h2
  have hnpos : (0 : ℚ) < (assets.length : ℚ) := by
    have hp : 0 < assets.length := by omega
    exact_mod_cast hp
  have hge1 : 1 ≤ hhi_of data := by nlinarith [hcs, hnle, hnpos]
  have hne : data.isEmpty = false := by
    have hl : data.length = assets.length := by
      rw [hD]
      unfold portfolio_pre
      simp
    rcases hcase : data with _ | ⟨a, t⟩
    · rw [hcase] at hl
      simp at hl
      omega
    · rfl
  unfold analyze_risk
  rw [if_neg (by rw [hne]; exact Bool.false_ne_true)]
  have hlv : risk_levels (hhi_of data) = ("high", "high") := by
    unfold risk_levels
    rw [if_pos (by linarith)]
  have hdvg : (100 : ℚ) - hhi_of data * 100 ≤ 0 := by linarith
  refine ⟨?_, ?_, ?_⟩
  · rw [hlv]
  · rw [hlv]
  · exact max_eq_left hdvg

/-- Witness for C8 at a one-asset BTC portfolio. -/
theorem C8_percentage_weights_witness :
    1 ≤ ([⟨"BTC", 1, 30000, "2024-01-01"⟩] : List PortfolioAsset).length
    ∧ ([⟨"BTC", 1, 30000, "2024-01-01"⟩] : List PortfolioAsset).length ≤ 10000
    ∧ 0 < (calculate_portfolio_metrics [⟨"BTC", 1, 30000, "2024-01-01"⟩]).total_current_value
    ∧ (analyze_risk
        (calculate_portfolio_metrics [⟨"BTC", 1, 30000, "2024-01-01"⟩]).portfolio_data).risk_level
      = "high"
    ∧ (analyze_risk
        (calculate_portfolio_metrics
          [⟨"BTC", 1, 30000, "2024-01-01"⟩]).portfolio_data).concentration_risk
      = "high"
    ∧ (analyze_risk
        (calculate_portfolio_metrics
          [⟨"BTC", 1, 30000, "2024-01-01"⟩]).portfolio_data).diversification_score
      = 0 := by
  have hval : (calculate_portfolio_metrics
      ([⟨"BTC", 1, 30000, "2024-01-01"⟩] : List PortfolioAsset)).total_current_value
      = 45000 := by
    show total_value_of [⟨"BTC", 1, 30000, "2024-01-01"⟩] = 45000
    have hprice : get_current_price "BTC" = 45000 := by
      unfold get_current_price
      rw [show upperStr "BTC" = "BTC" from by decide]
      rw [show List.lookup "BTC" MOCK_PRICES = some 45000 from by
        simp [MOCK_PRICES, List.lookup]]
      rfl
    simp [total_value_of, portfolio_pre, asset_record, hprice]
  have h3 : 0 < (calculate_portfolio_metrics
      ([⟨"BTC", 1, 30000, "2024-01-01"⟩] : List PortfolioAsset)).total_current_value := by
    rw [hval]
    norm_num
  have h := C8_percentage_weights_force_high_risk [⟨"BTC", 1, 30000, "2024-01-01"⟩]
    (by decide) (by decide) h3
  exact ⟨by decide, by decide, h3, h.1, h.2.1, h.2.2⟩
